import Mathlib

/-!
Shallow embedding of the FocusDash dashboard (`sites/focusdash_site/app.js`).

The repository ships two near-duplicate scripts in that file:
* the feature-complete dashboard (lines 1-137), embedded below with the
  source names (`loadJSON`, `saveJSON`, `addTask`, `setTimerFromInputs`,
  `step`, `startTimer`, `pauseTimer`, ...);
* a defensive draft (lines 138-228) whose `setTimerFromInputs` clamps
  differently; its duration logic is embedded as `fminD` / `bminD` /
  `setTimerFromInputsD`.

JavaScript numbers that may be `NaN` are modelled as `Option Int`
(`none` = `NaN`); `Math.max` / `Math.min` / arithmetic propagate `NaN`.
The `localStorage` cell backing one domain key is modelled by `Store`,
whose non-`stored` constructors are the failure modes the adapter
swallows (store object unavailable, no such key, corrupt serialization).
A `save` attempt that fails (quota, unavailable store) is modelled by the
`ok : Bool` parameter of `saveJSON`: on `false` the cell is unchanged.
-/

namespace FocusDash

/-- One `localStorage` cell holding the serialized collection of a domain
key, together with the failure modes of reading it. -/
inductive Store (α : Type) where
  | unavailable : Store α
  | absent : Store α
  | corrupt : Store α
  | stored (v : α) : Store α
deriving DecidableEq, Repr

/-- `loadJSON(key, fallback)` (app.js lines 7-10): returns the parsed
stored value, and the fallback on any failure (`getItem` throwing,
`null` raw value, `JSON.parse` throwing). -/
def loadJSON {α : Type} (s : Store α) (fallback : α) : α :=
  match s with
  | .stored v => v
  | _ => fallback

/-- `saveJSON(key, value)` (app.js lines 11-13): persists `value` when the
write succeeds (`ok = true`), and silently leaves the cell unchanged when
`setItem` throws (`ok = false`). -/
def saveJSON {α : Type} (ok : Bool) (s : Store α) (v : α) : Store α :=
  if ok then .stored v else s

/-- Task record `{text, done, minutes}`; `minutes` is `Option` because a
stored JSON object may lack the field (the code reads `t.minutes||0`). -/
structure Task where
  text : String
  done : Bool
  minutes : Option Nat
deriving DecidableEq, Repr

/-- Milestone record `{text, done}` inside a project. -/
structure Milestone where
  text : String
  done : Bool
deriving DecidableEq, Repr

/-- Project record `{name, milestones}`; `milestones` is `Option` because
the code guards with `projects[idx].milestones || []`. -/
structure Project where
  name : String
  milestones : Option (List Milestone)
deriving DecidableEq, Repr

/-- Habit record `{name, streak, lastDone}`; `streak` is `Option` because
the code reads `hs[idx].streak||0`, `lastDone` is `null` on creation. -/
structure Habit where
  name : String
  streak : Option Nat
  lastDone : Option String
deriving DecidableEq, Repr

/-- JavaScript `String.prototype.trim`: strip whitespace from both ends.
Defined structurally over the character list so it evaluates. -/
def jsTrim (s : String) : String :=
  String.mk (((s.data.dropWhile Char.isWhitespace).reverse.dropWhile
    Char.isWhitespace).reverse)

/-- `t.minutes||0` from `updateKPIs` (app.js lines 17-18). -/
def minutesOrZero (t : Task) : Nat := t.minutes.getD 0

/-- Planned-minutes KPI: `tasks.reduce((a,t)=>a+(t.minutes||0),0)` over the
loaded collection (app.js line 17). -/
def plannedMinutes (s : Store (List Task)) : Nat :=
  ((loadJSON s []).map minutesOrZero).sum

/-- Completed-minutes KPI: same sum restricted to `t.done` (app.js line 18). -/
def completedMinutes (s : Store (List Task)) : Nat :=
  (((loadJSON s []).filter (fun t => t.done)).map minutesOrZero).sum

/-- The task list rendered by `renderTasks` (app.js line 26): the loaded
collection truncated by `tasks.slice(0,3)`. -/
def renderedTasks (s : Store (List Task)) : List Task :=
  (loadJSON s []).take 3

/-- The indices for which `renderTasks` installs a toggle (checkbox
`change`) handler: one per rendered entry, in order. -/
def toggleableIdxs (s : Store (List Task)) : List Nat :=
  List.range (renderedTasks s).length

/-- `addTask` (app.js lines 38-45): trim the input, bail out on empty
text, otherwise `unshift` a fresh task onto the loaded collection and
save it. -/
def addTask (raw : String) (ok : Bool) (s : Store (List Task)) :
    Store (List Task) :=
  let text := jsTrim raw
  if text = "" then s
  else
    let tasks := loadJSON s []
    saveJSON ok s ({ text := text, done := false, minutes := some 25 } :: tasks)

/-- The checkbox `change` handler from `renderTasks` (app.js line 30): it
mutates `tasks[idx].done` on the array captured at render time and saves
that array. Out-of-range `idx` would read a field of `undefined` and
throw, modelled by `none`. -/
def toggleTask (captured : List Task) (idx : Nat) (checked : Bool)
    (ok : Bool) (s : Store (List Task)) : Option (Store (List Task)) :=
  match captured[idx]? with
  | none => none
  | some t =>
      some (saveJSON ok s (captured.set idx { t with done := checked }))

/-- The `clearDoneBtn` handler (app.js lines 126-128): keep the tasks
with `!t.done` and save the filtered collection. -/
def clearDone (ok : Bool) (s : Store (List Task)) : Store (List Task) :=
  saveJSON ok s ((loadJSON s []).filter (fun t => !t.done))

/-- The `wipeAllBtn` handler (app.js line 129): save the empty
collection. -/
def wipeAll (ok : Bool) (s : Store (List Task)) : Store (List Task) :=
  saveJSON ok s []

/-- `addProject` (app.js lines 87-93): trim, bail out on empty name,
otherwise `unshift {name, milestones:[]}` and save. -/
def addProject (raw : String) (ok : Bool) (s : Store (List Project)) :
    Store (List Project) :=
  let name := jsTrim raw
  if name = "" then s
  else
    let projects := loadJSON s []
    saveJSON ok s ({ name := name, milestones := some [] } :: projects)

/-- The milestone-button handler from `renderProjects` (app.js lines
77-82): on the `projects` array captured at render time, default the
milestone list with `|| []`, `unshift` the new milestone, save. -/
def addMilestone (captured : List Project) (idx : Nat) (raw : String)
    (ok : Bool) (s : Store (List Project)) : Option (Store (List Project)) :=
  let txt := jsTrim raw
  if txt = "" then some s
  else
    match captured[idx]? with
    | none => none
    | some p =>
        let ms := p.milestones.getD []
        some (saveJSON ok s
          (captured.set idx { p with milestones := some ({ text := txt, done := false } :: ms) }))

/-- `addHabit` (app.js lines 115-121): trim, bail out on empty name,
otherwise `unshift {name, streak:0, lastDone:null}` and save. -/
def addHabit (raw : String) (ok : Bool) (s : Store (List Habit)) :
    Store (List Habit) :=
  let name := jsTrim raw
  if name = "" then s
  else
    let habits := loadJSON s []
    saveJSON ok s ({ name := name, streak := some 0, lastDone := none } :: habits)

/-- The "Done today" handler from `renderHabits` (app.js lines 106-111):
re-load the collection, return unchanged if `lastDone` is already today,
otherwise stamp today, bump `streak||0` and save. Out-of-range `idx`
reads a field of `undefined` and throws, modelled by `none`. -/
def habitDoneToday (today : String) (idx : Nat) (ok : Bool)
    (s : Store (List Habit)) : Option (Store (List Habit)) :=
  let hs := loadJSON s []
  match hs[idx]? with
  | none => none
  | some h =>
      if h.lastDone = some today then some s
      else
        some (saveJSON ok s
          (hs.set idx { h with lastDone := some today, streak := some (h.streak.getD 0 + 1) }))

/-! ### Timer automaton -/

/-- A JavaScript number that may be `NaN` (`none`). -/
abbrev JSNum := Option Int

/-- JS subtraction: `NaN` propagates. -/
def jsSub (a b : JSNum) : JSNum :=
  match a, b with
  | some x, some y => some (x - y)
  | _, _ => none

/-- JS multiplication: `NaN` propagates. -/
def jsMul (a b : JSNum) : JSNum :=
  match a, b with
  | some x, some y => some (x * y)
  | _, _ => none

/-- `Math.max`: any `NaN` argument yields `NaN`. -/
def jsMax (a b : JSNum) : JSNum :=
  match a, b with
  | some x, some y => some (max x y)
  | _, _ => none

/-- `Math.min`: any `NaN` argument yields `NaN`. -/
def jsMin (a b : JSNum) : JSNum :=
  match a, b with
  | some x, some y => some (min x y)
  | _, _ => none

/-- Strict equality `x === 0`; `NaN === 0` is false. -/
def jsEqZero (a : JSNum) : Bool :=
  match a with
  | some x => x == 0
  | none => false

/-- What `parseInt(field.value || dflt, 10)` can see of a minutes input
box: an empty string (falsy, so the default string is parsed), a string
parsing to an integer, or a non-numeric string (`parseInt` gives `NaN`). -/
inductive FieldVal where
  | empty : FieldVal
  | numeric (n : Int) : FieldVal
  | nonNumeric : FieldVal
deriving DecidableEq, Repr

/-- `parseInt(v || String(dflt), 10)` as a possibly-`NaN` number. -/
def parseField (dflt : Int) (v : FieldVal) : JSNum :=
  match v with
  | .empty => some dflt
  | .numeric n => some n
  | .nonNumeric => none

/-- `fmin` of the main `setTimerFromInputs` (app.js line 54):
`f ? Math.max(5, Math.min(90, parseInt(f.value||"25",10))) : 25`;
`none` for the field means the element is absent from the page. -/
def fminA (f : Option FieldVal) : JSNum :=
  match f with
  | none => some 25
  | some v => jsMax (some 5) (jsMin (some 90) (parseField 25 v))

/-- `bmin` of the main `setTimerFromInputs` (app.js line 55):
`b ? Math.max(1, Math.min(30, parseInt(b.value||"5",10))) : 5`. -/
def bminA (b : Option FieldVal) : JSNum :=
  match b with
  | none => some 5
  | some v => jsMax (some 1) (jsMin (some 30) (parseField 5 v))

/-- `fmin` of the defensive draft (app.js lines 183-185):
`parseInt`, then `if(!fmin || fmin<5) fmin=25; if(fmin>90) fmin=90`
(`!NaN` and `!0` are true). -/
def fminD (f : Option FieldVal) : Int :=
  let p : JSNum := match f with
    | none => some 25
    | some v => parseField 25 v
  let p1 : Int := match p with
    | none => 25
    | some n => if n = 0 ∨ n < 5 then 25 else n
  if p1 > 90 then 90 else p1

/-- `bmin` of the defensive draft (app.js lines 184-186):
`if(!bmin || bmin<1) bmin=5; if(bmin>30) bmin=30`. -/
def bminD (b : Option FieldVal) : Int :=
  let p : JSNum := match b with
    | none => some 5
    | some v => parseField 5 v
  let p1 : Int := match p with
    | none => 5
    | some n => if n = 0 ∨ n < 1 then 5 else n
  if p1 > 30 then 30 else p1

/-- The two timer phases (`timerMode` is `"focus"` or `"break"`). -/
inductive Mode where
  | focus : Mode
  | brk : Mode
deriving DecidableEq, Repr

/-- `timerMode = timerMode==="focus" ? "break" : "focus"` (app.js line 62). -/
def flipMode (m : Mode) : Mode :=
  match m with
  | .focus => .brk
  | .brk => .focus

/-- The timer's global mutable state together with the current contents
of the two minutes input boxes (`none` = the element is absent): globals
`timerMode`, `remaining`, and whether an interval is active (`tick`
non-null). -/
structure World where
  mode : Mode
  remaining : JSNum
  tickOn : Bool
  f : Option FieldVal
  b : Option FieldVal
deriving DecidableEq, Repr

/-- The globals at script load (app.js line 46):
`timerMode="focus"; remaining=25*60; tick=null`. -/
def world0 (f b : Option FieldVal) : World :=
  { mode := .focus, remaining := some (25 * 60), tickOn := false, f := f, b := b }

/-- `setTimerFromInputs` (app.js lines 52-58):
`remaining = (timerMode==="focus" ? fmin : bmin) * 60`. -/
def setTimerFromInputs (w : World) : World :=
  let fmin := fminA w.f
  let bmin := bminA w.b
  { w with remaining := jsMul (match w.mode with | .focus => fmin | .brk => bmin) (some 60) }

/-- `setTimerFromInputs` of the defensive draft (app.js lines 181-189),
with its own clamping logic; the result is always a genuine number. -/
def setTimerFromInputsD (w : World) : World :=
  let fmin := fminD w.f
  let bmin := bminD w.b
  { w with remaining := some ((match w.mode with | .focus => fmin | .brk => bmin) * 60) }

/-- `step` (app.js lines 59-63): `remaining = Math.max(0, remaining-1)`;
if the result `=== 0`, flip `timerMode` and re-derive `remaining` via
`setTimerFromInputs`. The `tick` handle is untouched. -/
def step (w : World) : World :=
  let r := jsMax (some 0) (jsSub w.remaining (some 1))
  let w1 := { w with remaining := r }
  if jsEqZero r then setTimerFromInputs { w1 with mode := flipMode w1.mode }
  else w1

/-- `resetTimer` (app.js line 66): `pauseTimer(); setTimerFromInputs()`. -/
def resetTimer (w : World) : World :=
  setTimerFromInputs { w with tickOn := false }

/-- The configured duration, in seconds, of a given phase under the
current input boxes — what `setTimerFromInputs` would assign in that
phase. -/
def phaseDurSecs (m : Mode) (f b : Option FieldVal) : JSNum :=
  jsMul (match m with | .focus => fminA f | .brk => bminA b) (some 60)

/-- An input box whose content never makes `parseInt` return `NaN`. -/
def goodField (o : Option FieldVal) : Prop :=
  ∀ v, o = some v → v ≠ FieldVal.nonNumeric

/-- The timer states reachable through the wired UI events, with no
restriction on what the user types into the boxes: page load runs
`setTimerFromInputs` over the initial globals; afterwards the `change`
handlers of the two boxes re-run `setTimerFromInputs` whenever a box
changes, and the buttons drive `step` ticks, `startTimer`, `pauseTimer`
and `resetTimer`. -/
inductive ReachableTimer : World → Prop where
  | init (f b : Option FieldVal) :
      ReachableTimer (setTimerFromInputs (world0 f b))
  | change (w : World) (f b : Option FieldVal) (hw : ReachableTimer w) :
      ReachableTimer (setTimerFromInputs { w with f := f, b := b })
  | tick (w : World) (hw : ReachableTimer w) : ReachableTimer (step w)
  | start (w : World) (hw : ReachableTimer w) :
      ReachableTimer { w with tickOn := true }
  | pause (w : World) (hw : ReachableTimer w) :
      ReachableTimer { w with tickOn := false }
  | reset (w : World) (hw : ReachableTimer w) : ReachableTimer (resetTimer w)

/-- The same event relation restricted to runs in which the boxes only
ever hold numeric-or-empty content — the side condition under which the
amended remaining-seconds invariant holds (a non-numeric box makes the
live script set `remaining` to NaN, see `ReachableTimer`). -/
inductive ReachableTimerGood : World → Prop where
  | init (f b : Option FieldVal) (hf : goodField f) (hb : goodField b) :
      ReachableTimerGood (setTimerFromInputs (world0 f b))
  | change (w : World) (f b : Option FieldVal) (hw : ReachableTimerGood w)
      (hf : goodField f) (hb : goodField b) :
      ReachableTimerGood (setTimerFromInputs { w with f := f, b := b })
  | tick (w : World) (hw : ReachableTimerGood w) : ReachableTimerGood (step w)
  | start (w : World) (hw : ReachableTimerGood w) :
      ReachableTimerGood { w with tickOn := true }
  | pause (w : World) (hw : ReachableTimerGood w) :
      ReachableTimerGood { w with tickOn := false }
  | reset (w : World) (hw : ReachableTimerGood w) : ReachableTimerGood (resetTimer w)

/-- Every numeric-or-empty-restricted run is in particular a run. -/
theorem reachableTimer_of_good (w : World) (hw : ReachableTimerGood w) :
    ReachableTimer w := by
  induction hw with
  | init f b hf hb => exact ReachableTimer.init f b
  | change w f b hw hf hb ih => exact ReachableTimer.change w f b ih
  | tick w hw ih => exact ReachableTimer.tick w ih
  | start w hw ih => exact ReachableTimer.start w ih
  | pause w hw ih => exact ReachableTimer.pause w ih
  | reset w hw ih => exact ReachableTimer.reset w ih

/-! ### Interval scheduler (start/pause callback discipline) -/

/-- The browser's interval table as seen by the timer code: the global
`tick` handle, the ids of currently live intervals, and the next fresh
id `setInterval` would return. -/
structure Sched where
  tick : Option Nat
  active : List Nat
  next : Nat
deriving DecidableEq, Repr

/-- Scheduler state at page load: `tick=null`, no interval registered. -/
def sched0 : Sched := { tick := none, active := [], next := 0 }

/-- `startTimer` (app.js line 64): `if(tick) return; tick=setInterval(step,1000)` —
registers one new interval and stores its handle. -/
def startTimer (s : Sched) : Sched :=
  match s.tick with
  | some _ => s
  | none => { tick := some s.next, active := s.next :: s.active, next := s.next + 1 }

/-- `pauseTimer` (app.js line 65): `if(!tick) return; clearInterval(tick); tick=null`. -/
def pauseTimer (s : Sched) : Sched :=
  match s.tick with
  | none => s
  | some id => { tick := none, active := s.active.filter (fun j => j ≠ id), next := s.next }

/-- Scheduler states reachable through the start/pause buttons. -/
inductive ReachableSched : Sched → Prop where
  | init : ReachableSched sched0
  | start (s : Sched) (hs : ReachableSched s) : ReachableSched (startTimer s)
  | pause (s : Sched) (hs : ReachableSched s) : ReachableSched (pauseTimer s)

/-! ### Theorems -/

/-- C2: `loadJSON(key, fallback)` returns the deserialized stored value
when one exists and the fallback on every failure mode (store
unavailable, no such key, corrupt serialization), and `saveJSON` leaves
the store cell unchanged when the write fails and stores the value when
it succeeds; both are total functions, so neither raises to its caller. -/
theorem C2_load_save_contract :
    (∀ (α : Type) (v fb : α), loadJSON (Store.stored v) fb = v) ∧
    (∀ (α : Type) (fb : α),
      loadJSON (Store.unavailable (α := α)) fb = fb ∧
      loadJSON (Store.absent (α := α)) fb = fb ∧
      loadJSON (Store.corrupt (α := α)) fb = fb) ∧
    (∀ (α : Type) (s : Store α) (v : α), saveJSON false s v = s) ∧
    (∀ (α : Type) (s : Store α) (v : α), saveJSON true s v = Store.stored v) :=
  ⟨fun _ _ _ => rfl, fun _ _ => ⟨rfl, rfl, rfl⟩, fun _ _ _ => rfl, fun _ _ _ => rfl⟩

/-- C10: if the supplied text trims to the empty string, each of
`addTask`, `addProject`, `addHabit` returns before touching the store:
the stored collection is completely unchanged. -/
theorem C10_blank_add_is_noop (raw : String) (htrim : jsTrim raw = "") :
    (∀ (ok : Bool) (s : Store (List Task)), addTask raw ok s = s) ∧
    (∀ (ok : Bool) (s : Store (List Project)), addProject raw ok s = s) ∧
    (∀ (ok : Bool) (s : Store (List Habit)), addHabit raw ok s = s) := by
  refine ⟨fun ok s => ?_, fun ok s => ?_, fun ok s => ?_⟩ <;>
    simp [addTask, addProject, addHabit, htrim]

/-- Witness for C10 at the concrete whitespace-only input `"  "` and a
concrete stored collection. -/
theorem C10_blank_add_is_noop_witness :
    addTask "  " true (Store.stored [{ text := "a", done := false, minutes := some 25 }])
      = Store.stored [{ text := "a", done := false, minutes := some 25 }] :=
  (C10_blank_add_is_noop "  " (by decide)).1 true _

/-- C4: the main `setTimerFromInputs` clamps a numeric focus input to
`[5,90]` and a numeric break input to `[1,30]`, each to the nearest
bound; in particular focus input `3` yields 5 minutes and focus input
`999` yields 90 minutes, as reflected in `remaining`. -/
theorem C4_configure_clamps :
    (∀ n : Int, fminA (some (.numeric n)) = some (max 5 (min 90 n))) ∧
    (∀ n : Int, bminA (some (.numeric n)) = some (max 1 (min 30 n))) ∧
    fminA (some (.numeric 3)) = some 5 ∧
    fminA (some (.numeric 999)) = some 90 ∧
    (∀ w : World, w.mode = .focus →
      (setTimerFromInputs
        { w with f := some (.numeric 3), b := some (.numeric 5) }).remaining = some (5 * 60) ∧
      (setTimerFromInputs
        { w with f := some (.numeric 999), b := some (.numeric 5) }).remaining = some (90 * 60)) := by
  refine ⟨fun n => rfl, fun n => rfl, by decide, by decide, fun w hm => ?_⟩
  constructor <;> simp [setTimerFromInputs, hm, fminA, bminA, parseField, jsMax, jsMin, jsMul]

/-- Witness for C4 at the concrete initial world in focus mode. -/
theorem C4_configure_clamps_witnesses :
    (setTimerFromInputs
      { world0 none none with f := some (.numeric 3), b := some (.numeric 5) }).remaining
        = some (5 * 60) ∧
    (setTimerFromInputs
      { world0 none none with f := some (.numeric 999), b := some (.numeric 5) }).remaining
        = some (90 * 60) :=
  C4_configure_clamps.2.2.2.2 (world0 none none) rfl

/-- C3: from `remaining = 1` with the interval running, one `step` flips
the phase and reloads `remaining` with the currently configured duration
of the new phase (break minutes times 60 when leaving Focus, focus
minutes times 60 when leaving Break), and the interval handle is
untouched — the timer keeps running across the boundary. -/
theorem C3_phase_boundary (w : World) (hr : w.remaining = some 1)
    (ht : w.tickOn = true) :
    (w.mode = .focus →
      (step w).mode = .brk ∧
      (step w).remaining = jsMul (bminA w.b) (some 60) ∧
      (step w).tickOn = true) ∧
    (w.mode = .brk →
      (step w).mode = .focus ∧
      (step w).remaining = jsMul (fminA w.f) (some 60) ∧
      (step w).tickOn = true) := by
  refine ⟨fun hm => ?_, fun hm => ?_⟩ <;>
    simp [step, hr, hm, ht, jsSub, jsMax, jsEqZero, flipMode, setTimerFromInputs]

/-- Witness for C3 at a concrete running world one second before the end
of a Focus phase with break minutes configured to 5. -/
theorem C3_phase_boundary_witness :
    (step { mode := .focus, remaining := some 1, tickOn := true,
            f := some (.numeric 25), b := some (.numeric 5) }).mode = Mode.brk ∧
    (step { mode := .focus, remaining := some 1, tickOn := true,
            f := some (.numeric 25), b := some (.numeric 5) }).remaining
      = jsMul (bminA (some (.numeric 5))) (some 60) ∧
    (step { mode := .focus, remaining := some 1, tickOn := true,
            f := some (.numeric 25), b := some (.numeric 5) }).tickOn = true :=
  (C3_phase_boundary _ rfl rfl).1 rfl

/-- C6: the habit "Done today" handler is idempotent per calendar day:
if the habit at `idx` in the freshly loaded collection already has
`lastDone` equal to today's date, the handler returns before mutating or
saving, so the stored collection is exactly the one before the click. -/
theorem C6_habit_done_today_idempotent (today : String) (idx : Nat)
    (ok : Bool) (s : Store (List Habit)) (h : Habit)
    (hget : (loadJSON s [])[idx]? = some h) (hld : h.lastDone = some today) :
    habitDoneToday today idx ok s = some s := by
  simp [habitDoneToday, hget, hld]

/-- Witness for C6: a second "Done today" on a habit already stamped with
the concrete date `2026-10-12` leaves the stored collection unchanged. -/
theorem C6_habit_done_today_idempotent_witness :
    habitDoneToday "2026-10-12" 0 true
      (Store.stored [{ name := "run", streak := some 4, lastDone := some "2026-10-12" }])
      = some (Store.stored [{ name := "run", streak := some 4, lastDone := some "2026-10-12" }]) :=
  C6_habit_done_today_idempotent "2026-10-12" 0 true _
    { name := "run", streak := some 4, lastDone := some "2026-10-12" } rfl rfl

/-- A failed write leaves the store cell untouched. -/
theorem saveJSON_false {α : Type} (s : Store α) (v : α) : saveJSON false s v = s := rfl

/-- `addTask` with a dropped save leaves the store cell unchanged. -/
theorem addTask_dropped (raw : String) (s : Store (List Task)) :
    addTask raw false s = s := by
  by_cases hc : jsTrim raw = "" <;> simp [addTask, hc, saveJSON]

/-- The task toggle handler with a dropped save leaves the cell unchanged. -/
theorem toggleTask_dropped (captured : List Task) (idx : Nat) (checked : Bool)
    (s s' : Store (List Task))
    (h : toggleTask captured idx checked false s = some s') : s' = s := by
  rcases hc : captured[idx]? with _ | t
  · simp [toggleTask, hc] at h
  · simp [toggleTask, hc, saveJSON] at h
    exact h.symm

/-- `clearDone` with a dropped save leaves the store cell unchanged. -/
theorem clearDone_dropped (s : Store (List Task)) : clearDone false s = s := by
  simp [clearDone, saveJSON]

/-- `wipeAll` with a dropped save leaves the store cell unchanged. -/
theorem wipeAll_dropped (s : Store (List Task)) : wipeAll false s = s := by
  simp [wipeAll, saveJSON]

/-- `addProject` with a dropped save leaves the store cell unchanged. -/
theorem addProject_dropped (raw : String) (s : Store (List Project)) :
    addProject raw false s = s := by
  by_cases hc : jsTrim raw = "" <;> simp [addProject, hc, saveJSON]

/-- The milestone handler with a dropped save leaves the cell unchanged. -/
theorem addMilestone_dropped (captured : List Project) (idx : Nat)
    (raw : String) (s s' : Store (List Project))
    (h : addMilestone captured idx raw false s = some s') : s' = s := by
  by_cases ht : jsTrim raw = ""
  · simp [addMilestone, ht] at h
    exact h.symm
  · rcases hc : captured[idx]? with _ | p
    · simp [addMilestone, ht, hc] at h
    · simp [addMilestone, ht, hc, saveJSON] at h
      exact h.symm

/-- `addHabit` with a dropped save leaves the store cell unchanged. -/
theorem addHabit_dropped (raw : String) (s : Store (List Habit)) :
    addHabit raw false s = s := by
  by_cases hc : jsTrim raw = "" <;> simp [addHabit, hc, saveJSON]

/-- The "Done today" handler with a dropped save leaves the cell unchanged. -/
theorem habitDoneToday_dropped (today : String) (idx : Nat)
    (s s' : Store (List Habit))
    (h : habitDoneToday today idx false s = some s') : s' = s := by
  rcases hc : (loadJSON s [])[idx]? with _ | hb
  · simp [habitDoneToday, hc] at h
  · by_cases hl : hb.lastDone = some today
    · simp [habitDoneToday, hc, hl] at h
      exact h.symm
    · simp [habitDoneToday, hc, hl, saveJSON] at h
      exact h.symm

/-- C1: every list-mutating operation reaches the store only through
`saveJSON`, and the subsequent re-render re-reads the collection through
`loadJSON`; hence when the save is dropped (`ok = false`) the collection
visible after the re-render equals the collection visible before the
operation, for add/toggle/clear/wipe on tasks, add/add-milestone on
projects, and add/done-today on habits. -/
theorem C1_failed_write_invisible (sT : Store (List Task))
    (sP : Store (List Project)) (sH : Store (List Habit)) :
    (∀ raw, loadJSON (addTask raw false sT) [] = loadJSON sT []) ∧
    (∀ captured idx checked s',
      toggleTask captured idx checked false sT = some s' →
      loadJSON s' [] = loadJSON sT []) ∧
    loadJSON (clearDone false sT) [] = loadJSON sT [] ∧
    loadJSON (wipeAll false sT) [] = loadJSON sT [] ∧
    (∀ raw, loadJSON (addProject raw false sP) [] = loadJSON sP []) ∧
    (∀ captured idx raw s',
      addMilestone captured idx raw false sP = some s' →
      loadJSON s' [] = loadJSON sP []) ∧
    (∀ raw, loadJSON (addHabit raw false sH) [] = loadJSON sH []) ∧
    (∀ today idx s',
      habitDoneToday today idx false sH = some s' →
      loadJSON s' [] = loadJSON sH []) := by
  refine ⟨fun raw => by rw [addTask_dropped],
    fun captured idx checked s' h => by rw [toggleTask_dropped captured idx checked sT s' h],
    by rw [clearDone_dropped], by rw [wipeAll_dropped],
    fun raw => by rw [addProject_dropped],
    fun captured idx raw s' h => by rw [addMilestone_dropped captured idx raw sP s' h],
    fun raw => by rw [addHabit_dropped],
    fun today idx s' h => by rw [habitDoneToday_dropped today idx sH s' h]⟩

/-- Witness for C1: the hypothesis-bearing conjuncts (toggle, milestone,
done-today) applied at a concrete one-element store each leave the
visible collection equal to the pre-operation one. -/
theorem C1_failed_write_invisible_witness :
    loadJSON (Store.stored [({ text := "a", done := false, minutes := some 25 } : Task)]) []
      = loadJSON (Store.stored [({ text := "a", done := false, minutes := some 25 } : Task)]) [] ∧
    loadJSON (Store.stored [({ name := "p", milestones := some [] } : Project)]) []
      = loadJSON (Store.stored [({ name := "p", milestones := some [] } : Project)]) [] ∧
    loadJSON (Store.stored [({ name := "h", streak := some 0, lastDone := none } : Habit)]) []
      = loadJSON (Store.stored [({ name := "h", streak := some 0, lastDone := none } : Habit)]) [] :=
  ⟨(C1_failed_write_invisible (Store.stored [{ text := "a", done := false, minutes := some 25 }])
      (Store.stored [{ name := "p", milestones := some [] }])
      (Store.stored [{ name := "h", streak := some 0, lastDone := none }])).2.1
      [{ text := "a", done := false, minutes := some 25 }] 0 true _ rfl,
   (C1_failed_write_invisible (Store.stored [{ text := "a", done := false, minutes := some 25 }])
      (Store.stored [{ name := "p", milestones := some [] }])
      (Store.stored [{ name := "h", streak := some 0, lastDone := none }])).2.2.2.2.2.1
      [{ name := "p", milestones := some [] }] 0 "m" _ rfl,
   (C1_failed_write_invisible (Store.stored [{ text := "a", done := false, minutes := some 25 }])
      (Store.stored [{ name := "p", milestones := some [] }])
      (Store.stored [{ name := "h", streak := some 0, lastDone := none }])).2.2.2.2.2.2.2
      "2026-10-12" 0 _ rfl⟩

/-- C5 counterexample: in the main script's `setTimerFromInputs`, a
non-empty non-numeric focus input is not defaulted to 25 minutes:
`parseInt` yields NaN, the `Math.max`/`Math.min` clamp keeps NaN, and
`remaining` ends up non-numeric instead of `25*60`. -/
theorem C5_nonnumeric_not_defaulted :
    (setTimerFromInputs (world0 (some .nonNumeric) (some .nonNumeric))).remaining = none ∧
    (setTimerFromInputs (world0 (some .nonNumeric) (some .nonNumeric))).remaining
      ≠ some (25 * 60) := by
  constructor
  · rfl
  · decide

/-- C5 as amended: the defensive draft's `setTimerFromInputsD` always
produces a genuine number for `remaining` and defaults non-numeric focus
input to 25 and break input to 5; the main `setTimerFromInputs` applies
the 25/5 default only to an empty (falsy) input, while a non-empty
non-numeric input there leaves `remaining` non-numeric. -/
theorem C5_amended_defaults :
    (∀ w : World, ∃ r : Int, (setTimerFromInputsD w).remaining = some r) ∧
    fminD (some .nonNumeric) = 25 ∧
    bminD (some .nonNumeric) = 5 ∧
    (∀ w : World, w.mode = .focus → w.f = some .nonNumeric →
      (setTimerFromInputsD w).remaining = some (25 * 60)) ∧
    (∀ w : World, w.mode = .brk → w.b = some .nonNumeric →
      (setTimerFromInputsD w).remaining = some (5 * 60)) ∧
    (∀ w : World, w.mode = .focus → w.f = some .empty →
      (setTimerFromInputs w).remaining = some (25 * 60)) ∧
    (∀ w : World, w.mode = .brk → w.b = some .empty →
      (setTimerFromInputs w).remaining = some (5 * 60)) ∧
    (∀ w : World, w.mode = .focus → w.f = some .nonNumeric →
      (setTimerFromInputs w).remaining = none) := by
  refine ⟨fun w => ⟨_, rfl⟩, by decide, by decide,
    fun w hm hf => ?_, fun w hm hb => ?_, fun w hm hf => ?_,
    fun w hm hb => ?_, fun w hm hf => ?_⟩
  · simp [setTimerFromInputsD, hm, hf, fminD, parseField]
  · simp [setTimerFromInputsD, hm, hb, bminD, parseField]
  · simp [setTimerFromInputs, hm, hf, fminA, parseField, jsMax, jsMin, jsMul]
  · simp [setTimerFromInputs, hm, hb, bminA, parseField, jsMax, jsMin, jsMul]
  · simp [setTimerFromInputs, hm, hf, fminA, parseField, jsMax, jsMin, jsMul]

/-- Witness for C5's amended statement at the concrete initial world with
non-numeric boxes (draft defaults) and with empty boxes (main script). -/
theorem C5_amended_defaults_witness :
    (setTimerFromInputsD (world0 (some .nonNumeric) (some .nonNumeric))).remaining
      = some (25 * 60) ∧
    (setTimerFromInputs (world0 (some .empty) (some .empty))).remaining
      = some (25 * 60) ∧
    (setTimerFromInputs (world0 (some .nonNumeric) (some .nonNumeric))).remaining = none :=
  ⟨C5_amended_defaults.2.2.2.1 (world0 (some .nonNumeric) (some .nonNumeric)) rfl rfl,
   C5_amended_defaults.2.2.2.2.2.1 (world0 (some .empty) (some .empty)) rfl rfl,
   C5_amended_defaults.2.2.2.2.2.2.2 (world0 (some .nonNumeric) (some .nonNumeric)) rfl rfl⟩

/-- The scheduler invariant: the live intervals are exactly the one held
in the `tick` handle (none when paused). -/
def SchedInv (s : Sched) : Prop :=
  match s.tick with
  | none => s.active = []
  | some id => s.active = [id]

/-- Every scheduler state reachable through the start/pause buttons
satisfies `SchedInv`. -/
theorem schedInv_of_reachable (s : Sched) (hs : ReachableSched s) : SchedInv s := by
  induction hs with
  | init => simp [SchedInv, sched0]
  | start s hs ih =>
      rcases hc : s.tick with _ | id
      · have hact : s.active = [] := by simpa [SchedInv, hc] using ih
        simp [SchedInv, startTimer, hc, hact]
      · simpa [SchedInv, startTimer, hc] using ih
  | pause s hs ih =>
      rcases hc : s.tick with _ | id
      · simpa [SchedInv, pauseTimer, hc] using ih
      · have hact : s.active = [id] := by simpa [SchedInv, hc] using ih
        simp [SchedInv, pauseTimer, hc, hact]

/-- C8: at most one periodic callback is ever live: `startTimer` is a
no-op when a handle is already stored (so two starts register exactly one
interval), every reachable scheduler state has at most one live interval,
and `pauseTimer` is a no-op when paused and cancels the live interval
otherwise. -/
theorem C8_at_most_one_callback :
    (∀ s : Sched, s.tick.isSome → startTimer s = s) ∧
    (∀ s : Sched, startTimer (startTimer s) = startTimer s) ∧
    (startTimer (startTimer sched0)).active = [0] ∧
    (∀ s : Sched, ReachableSched s → s.active.length ≤ 1) ∧
    (∀ s : Sched, s.tick = none → pauseTimer s = s) ∧
    (∀ s : Sched, ReachableSched s → (pauseTimer s).active = []) := by
  refine ⟨fun s h => ?_, fun s => ?_, by decide, fun s hs => ?_,
    fun s h => ?_, fun s hs => ?_⟩
  · rcases hc : s.tick with _ | id
    · rw [hc] at h; exact absurd h (by simp)
    · simp [startTimer, hc]
  · rcases hc : s.tick with _ | id <;> simp [startTimer, hc]
  · have := schedInv_of_reachable s hs
    rcases hc : s.tick with _ | id <;> rw [SchedInv, hc] at this <;> simp [this]
  · simp [pauseTimer, h]
  · have := schedInv_of_reachable s hs
    rcases hc : s.tick with _ | id <;> rw [SchedInv, hc] at this
    · simp [pauseTimer, hc, this]
    · simp [pauseTimer, hc, this]

/-- Witness for C8 at concrete scheduler states: a started state ignores
a second start, the reachable started state has one live interval, pause
on the initial state is a no-op, and pause after start leaves no live
interval. -/
theorem C8_at_most_one_callback_witness :
    startTimer { tick := some 0, active := [0], next := 1 }
      = { tick := some 0, active := [0], next := 1 } ∧
    (startTimer sched0).active.length ≤ 1 ∧
    pauseTimer sched0 = sched0 ∧
    (pauseTimer (startTimer sched0)).active = [] :=
  ⟨C8_at_most_one_callback.1 { tick := some 0, active := [0], next := 1 } rfl,
   C8_at_most_one_callback.2.2.2.1 (startTimer sched0)
     (ReachableSched.start sched0 ReachableSched.init),
   C8_at_most_one_callback.2.2.2.2.1 sched0 rfl,
   C8_at_most_one_callback.2.2.2.2.2 (startTimer sched0)
     (ReachableSched.start sched0 ReachableSched.init)⟩

/-- Splitting a mapped sum at position `n`. -/
theorem sum_map_split {α : Type} (f : α → Nat) (n : Nat) (l : List α) :
    (l.map f).sum = ((l.take n).map f).sum + ((l.drop n).map f).sum := by
  conv_lhs => rw [← List.take_append_drop n l]
  rw [List.map_append, List.sum_append]

/-- Splitting a filtered mapped sum at position `n`. -/
theorem sum_map_filter_split {α : Type} (p : α → Bool) (f : α → Nat)
    (n : Nat) (l : List α) :
    ((l.filter p).map f).sum
      = (((l.take n).filter p).map f).sum + (((l.drop n).filter p).map f).sum := by
  conv_lhs => rw [← List.take_append_drop n l]
  rw [List.filter_append, List.map_append, List.sum_append]

/-- C9: `renderTasks` displays only `tasks.slice(0,3)` of the loaded
collection, so for a stored collection longer than three the rendered
list has exactly three entries, the planned/completed-minutes KPIs still
sum over the tasks beyond position three, and no toggle handler exists
for any index at or beyond three. -/
theorem C9_render_truncates (s : Store (List Task))
    (h : 3 < (loadJSON s []).length) :
    renderedTasks s = (loadJSON s []).take 3 ∧
    (renderedTasks s).length = 3 ∧
    plannedMinutes s
      = (((loadJSON s []).take 3).map minutesOrZero).sum
        + (((loadJSON s []).drop 3).map minutesOrZero).sum ∧
    completedMinutes s
      = ((((loadJSON s []).take 3).filter (fun t => t.done)).map minutesOrZero).sum
        + ((((loadJSON s []).drop 3).filter (fun t => t.done)).map minutesOrZero).sum ∧
    ∀ i, 3 ≤ i → i ∉ toggleableIdxs s := by
  have hlen : (renderedTasks s).length = 3 := by
    simp only [renderedTasks, List.length_take]
    omega
  refine ⟨rfl, hlen, ?_, ?_, fun i hi => ?_⟩
  · exact sum_map_split minutesOrZero 3 (loadJSON s [])
  · exact sum_map_filter_split (fun t => t.done) minutesOrZero 3 (loadJSON s [])
  · simp only [toggleableIdxs, List.mem_range, hlen]
    omega

/-- Witness for C9 at a concrete four-task store: three tasks rendered,
KPIs keep counting the fourth, index 3 has no toggle handler. -/
theorem C9_render_truncates_witness :
    (renderedTasks (Store.stored
      [{ text := "a", done := false, minutes := some 25 },
       { text := "b", done := true, minutes := some 10 },
       { text := "c", done := false, minutes := some 5 },
       { text := "d", done := true, minutes := some 40 }])).length = 3 ∧
    3 ∉ toggleableIdxs (Store.stored
      [{ text := "a", done := false, minutes := some 25 },
       { text := "b", done := true, minutes := some 10 },
       { text := "c", done := false, minutes := some 5 },
       { text := "d", done := true, minutes := some 40 }]) :=
  ⟨(C9_render_truncates _ (by decide)).2.1,
   (C9_render_truncates _ (by decide)).2.2.2.2 3 (by decide)⟩

/-- For a numeric-or-empty focus box, `fmin` is a genuine number in
`[5, 90]`. -/
theorem fminA_of_good (f : Option FieldVal) (hf : goodField f) :
    ∃ k : Int, fminA f = some k ∧ 5 ≤ k ∧ k ≤ 90 := by
  match f with
  | none => exact ⟨25, rfl, by norm_num, by norm_num⟩
  | some .empty => exact ⟨25, by decide, by norm_num, by norm_num⟩
  | some (.numeric n) =>
      refine ⟨max 5 (min 90 n), rfl, le_max_left 5 (min 90 n), ?_⟩
      omega
  | some .nonNumeric => exact absurd rfl (hf FieldVal.nonNumeric rfl)

/-- For a numeric-or-empty break box, `bmin` is a genuine number in
`[1, 30]`. -/
theorem bminA_of_good (b : Option FieldVal) (hb : goodField b) :
    ∃ k : Int, bminA b = some k ∧ 1 ≤ k ∧ k ≤ 30 := by
  match b with
  | none => exact ⟨5, rfl, by norm_num, by norm_num⟩
  | some .empty => exact ⟨5, by decide, by norm_num, by norm_num⟩
  | some (.numeric n) =>
      refine ⟨max 1 (min 30 n), rfl, le_max_left 1 (min 30 n), ?_⟩
      omega
  | some .nonNumeric => exact absurd rfl (hb FieldVal.nonNumeric rfl)

/-- With numeric-or-empty boxes, every phase has a genuine configured
duration of at least one minute. -/
theorem phaseDurSecs_of_good (m : Mode) (f b : Option FieldVal)
    (hf : goodField f) (hb : goodField b) :
    ∃ d : Int, phaseDurSecs m f b = some d ∧ 60 ≤ d := by
  cases m with
  | focus =>
      obtain ⟨k, hk, h1, h2⟩ := fminA_of_good f hf
      exact ⟨k * 60, by simp [phaseDurSecs, hk, jsMul], by omega⟩
  | brk =>
      obtain ⟨k, hk, h1, h2⟩ := bminA_of_good b hb
      exact ⟨k * 60, by simp [phaseDurSecs, hk, jsMul], by omega⟩

/-- `setTimerFromInputs` only rewrites `remaining`, with exactly the
configured duration of the current phase. -/
theorem setTimerFromInputs_spec (w : World) :
    (setTimerFromInputs w).remaining = phaseDurSecs w.mode w.f w.b ∧
    (setTimerFromInputs w).mode = w.mode ∧
    (setTimerFromInputs w).f = w.f ∧ (setTimerFromInputs w).b = w.b ∧
    (setTimerFromInputs w).tickOn = w.tickOn := by
  refine ⟨?_, rfl, rfl, rfl, rfl⟩
  cases hm : w.mode <;> simp [setTimerFromInputs, phaseDurSecs, hm]

/-- After `setTimerFromInputs` over numeric-or-empty boxes, `remaining`
equals the current phase duration, so it lies in `[0, duration]`. -/
theorem setTimerFromInputs_establishes (w : World)
    (hf : goodField w.f) (hb : goodField w.b) :
    ∃ r d : Int, (setTimerFromInputs w).remaining = some r ∧
      phaseDurSecs (setTimerFromInputs w).mode (setTimerFromInputs w).f
        (setTimerFromInputs w).b = some d ∧ 0 ≤ r ∧ r ≤ d := by
  obtain ⟨d, hd, h60⟩ := phaseDurSecs_of_good w.mode w.f w.b hf hb
  obtain ⟨hrem, hmode, hfeq, hbeq, _⟩ := setTimerFromInputs_spec w
  refine ⟨d, d, ?_, ?_, by omega, le_refl d⟩
  · rw [hrem, hd]
  · rw [hmode, hfeq, hbeq, hd]

/-- Invariant of the timer states reachable along numeric-or-empty-box
runs: `remaining` is a genuine number within
`[0, current phase duration]`. -/
theorem timer_inv (w : World) (hw : ReachableTimerGood w) :
    goodField w.f ∧ goodField w.b ∧
    ∃ r d : Int, w.remaining = some r ∧
      phaseDurSecs w.mode w.f w.b = some d ∧ 0 ≤ r ∧ r ≤ d := by
  induction hw with
  | init f b hf hb =>
      exact ⟨hf, hb, setTimerFromInputs_establishes (world0 f b) hf hb⟩
  | change w f b hw hf hb ih =>
      exact ⟨hf, hb, setTimerFromInputs_establishes { w with f := f, b := b } hf hb⟩
  | tick w hw ih =>
      obtain ⟨hf, hb, r, d, hr, hd, h0, hrd⟩ := ih
      by_cases hr1 : r ≤ 1
      · have hmax0 : max 0 (r - 1) = 0 := by omega
        have hstep : step w
            = setTimerFromInputs { w with remaining := some 0, mode := flipMode w.mode } := by
          simp [step, hr, jsSub, jsMax, jsEqZero, hmax0]
        rw [hstep]
        exact ⟨hf, hb, setTimerFromInputs_establishes _ hf hb⟩
      · have hmax : max 0 (r - 1) = r - 1 := by omega
        have hne : ((r - 1 : Int) == 0) = false := by
          simp only [beq_eq_false_iff_ne, ne_eq]
          omega
        have hstep : step w = { w with remaining := some (r - 1) } := by
          simp [step, hr, jsSub, jsMax, jsEqZero, hmax, hne]
        rw [hstep]
        exact ⟨hf, hb, r - 1, d, rfl, hd, by omega, by omega⟩
  | start w hw ih =>
      exact ih
  | pause w hw ih =>
      exact ih
  | reset w hw ih =>
      obtain ⟨hf, hb, _⟩ := ih
      exact ⟨hf, hb, setTimerFromInputs_establishes { w with tickOn := false } hf hb⟩

/-- C7 counterexample: the claim fails on the live script as stated. The
page-load state with a non-numeric focus box (equally: any `change` event
carrying one) is reachable through the wired events, yet its `remaining`
is NaN — not an integer in `[0, phaseDurationSeconds]`. -/
theorem C7_nan_reachable_counterexample :
    ReachableTimer (setTimerFromInputs (world0 (some .nonNumeric) (some .empty))) ∧
    (setTimerFromInputs (world0 (some .nonNumeric) (some .empty))).remaining = none ∧
    ¬ ∃ r d : Int,
        (setTimerFromInputs (world0 (some .nonNumeric) (some .empty))).remaining = some r ∧
        phaseDurSecs (setTimerFromInputs (world0 (some .nonNumeric) (some .empty))).mode
          (setTimerFromInputs (world0 (some .nonNumeric) (some .empty))).f
          (setTimerFromInputs (world0 (some .nonNumeric) (some .empty))).b = some d ∧
        0 ≤ r ∧ r ≤ d := by
  refine ⟨ReachableTimer.init (some .nonNumeric) (some .empty), rfl, ?_⟩
  rintro ⟨r, d, hr, -, -, -⟩
  exact Option.noConfusion hr

/-- C7 as amended: along every run of the wired events in which the two
minutes boxes only ever hold numeric-or-empty content, `remaining` is a
genuine integer in `[0, phase duration]` for the currently configured
duration of the current phase; and whenever a tick drives `remaining`
to 0 (i.e. it was at most 1), the phase flips and `remaining` is
reloaded with the configured duration of the new phase. (A run with a
non-numeric box instead leaves `remaining` NaN, per the
counterexample.) -/
theorem C7_remaining_invariant :
    (∀ w : World, ReachableTimerGood w →
      ∃ r d : Int, w.remaining = some r ∧
        phaseDurSecs w.mode w.f w.b = some d ∧ 0 ≤ r ∧ r ≤ d) ∧
    (∀ (w : World) (r : Int), w.remaining = some r → r ≤ 1 →
      (step w).mode = flipMode w.mode ∧
      (step w).remaining = phaseDurSecs (flipMode w.mode) w.f w.b) := by
  constructor
  · intro w hw
    exact (timer_inv w hw).2.2
  · intro w r hr hr1
    have hmax0 : max 0 (r - 1) = 0 := by omega
    have hstep : step w
        = setTimerFromInputs { w with remaining := some 0, mode := flipMode w.mode } := by
      simp [step, hr, jsSub, jsMax, jsEqZero, hmax0]
    rw [hstep]
    obtain ⟨hrem, hmode, -, -, -⟩ :=
      setTimerFromInputs_spec { w with remaining := some 0, mode := flipMode w.mode }
    exact ⟨hmode, hrem⟩

/-- Witness for C7: the initial page-load state with empty boxes is a
numeric-or-empty run's state and satisfies the bound, and a concrete
world at `remaining = 1` flips into Break with the Break duration
reloaded. -/
theorem C7_remaining_invariant_witness :
    (∃ r d : Int,
      (setTimerFromInputs (world0 (some .empty) (some .empty))).remaining = some r ∧
      phaseDurSecs (setTimerFromInputs (world0 (some .empty) (some .empty))).mode
        (setTimerFromInputs (world0 (some .empty) (some .empty))).f
        (setTimerFromInputs (world0 (some .empty) (some .empty))).b = some d ∧
      0 ≤ r ∧ r ≤ d) ∧
    ((step { mode := .focus, remaining := some 1, tickOn := true,
             f := some (.numeric 25), b := some (.numeric 5) }).mode
      = flipMode Mode.focus ∧
     (step { mode := .focus, remaining := some 1, tickOn := true,
             f := some (.numeric 25), b := some (.numeric 5) }).remaining
      = phaseDurSecs (flipMode Mode.focus) (some (.numeric 25)) (some (.numeric 5))) :=
  ⟨C7_remaining_invariant.1 _
    (ReachableTimerGood.init (some .empty) (some .empty)
      (fun v h => by cases h; exact fun hn => by cases hn)
      (fun v h => by cases h; exact fun hn => by cases hn)),
   C7_remaining_invariant.2
     { mode := .focus, remaining := some 1, tickOn := true,
       f := some (.numeric 25), b := some (.numeric 5) } 1 rfl (by norm_num)⟩

end FocusDash
